import Mathlib

/-!
Shallow embedding of the recipe lookup service in `src/app/main.py`:
the seeded `RECIPES` collection, the `root`, `fetch_recipe` and
`search_recipes` endpoint functions, and the Python primitives they use
(cross-type `==`, string `in`, list slicing `[:n]`, falsiness of an
optional string).
-/

/-- A recipe record, as in the `RECIPES` list of dictionaries:
`id` (int), `label`, `source`, `url` (str). -/
structure Recipe where
  id : Int
  label : String
  source : String
  url : String
deriving DecidableEq, Repr

/-- First seeded record (`RECIPES[0]` in `src/app/main.py`, lines 7-12). -/
def chickenVesuvio : Recipe :=
  { id := 1
    label := "Chicken Vesuvio"
    source := "Serious Eats"
    url := "http://www.seriouseats.com/recipes/2011/12/chicken-vesuvio-recipe.html" }

/-- Second seeded record (`RECIPES[1]`, lines 13-18). -/
def chickenPaprikash : Recipe :=
  { id := 2
    label := "Chicken Paprikash"
    source := "No Recipes"
    url := "http://norecipes.com/recipe/chicken-paprikash/" }

/-- Third seeded record (`RECIPES[2]`, lines 19-24). -/
def cauliflowerTofu : Recipe :=
  { id := 3
    label := "Cauliflower and Tofu Curry Recipe"
    source := "Serious Eats"
    url := "http://www.seriouseats.com/recipes/2011/02/cauliflower-and-tofu-curry-recipe.html" }

/-- The module-level seed collection `RECIPES` (lines 6-25). -/
def RECIPES : List Recipe := [chickenVesuvio, chickenPaprikash, cauliflowerTofu]

/-- Python `==` between an `int` and a `str`: values of different types
compare unequal, so the comparison is always `False`.  This is the
comparison `recipe["id"] == recipe_id` on line 54, where `recipe["id"]`
is an `int` and `recipe_id` is the `str` path parameter. -/
def pyEqIntStr (_i : Int) (_s : String) : Bool := false

/-- Python list slicing `l[:n]` with an `Optional[int]` bound:
`l[:None]` is the whole list, `l[:n]` for `n ≥ 0` keeps the first `n`
elements, and `l[:n]` for `n < 0` keeps the first `len(l) + n` elements
(clamped at zero). -/
def pySliceTo (l : List α) : Option Int → List α
  | none => l
  | some n => if 0 ≤ n then l.take n.toNat else l.take ((l.length : Int) + n).toNat

/-- Decides whether the first character list starts the second one. -/
def headMatch : List Char → List Char → Bool
  | [], _ => true
  | _ :: _, [] => false
  | a :: as, b :: bs => a == b && headMatch as bs

/-- Decides whether `n` occurs contiguously inside the second character
list: Python `in` on strings. -/
def containsSub (n : List Char) : List Char → Bool
  | [] => headMatch n []
  | h :: t => headMatch n (h :: t) || containsSub n t

/-- Python `s.lower()`, as the list of lowered characters.  ASCII
letters are lowered, which matches Python on the ASCII data of this
repository. -/
def pyLower (s : String) : List Char :=
  s.toList.map Char.toLower

/-- The filter predicate on line 73:
`lambda recipe: keyword.lower() in recipe["label"].lower()`, where
Python `in` on strings is contiguous substring containment. -/
def labelMatch (keyword : String) (r : Recipe) : Bool :=
  containsSub (pyLower keyword) (pyLower r.label)

/-- The dictionary returned by `root` (line 42): `{"msg": ...}`. -/
structure RootResult where
  msg : String
deriving DecidableEq, Repr

/-- The dictionary returned by `search_recipes` (lines 69-76):
`{"results": [...]}`. -/
structure SearchResult where
  results : List Recipe
deriving DecidableEq, Repr

/-- The `root` endpoint (lines 37-42): returns `{"msg": "Hello, World!"}`. -/
def root : RootResult := { msg := "Hello, World!" }

/-- Body of `fetch_recipe` (lines 47-56) over an explicit collection:
`result = [recipe for recipe in db if recipe["id"] == recipe_id]`, then
`result[0]` if `result` is non-empty, else the implicit `None`. -/
def fetch_recipe_db (db : List Recipe) (recipe_id : String) : Option Recipe :=
  match db.filter (fun r => pyEqIntStr r.id recipe_id) with
  | [] => none
  | r :: _ => some r

/-- The `fetch_recipe` endpoint (lines 46-56): the body above applied to
the module-level `RECIPES`. -/
def fetch_recipe (recipe_id : String) : Option Recipe :=
  fetch_recipe_db RECIPES recipe_id

/-- Body of the `if not keyword` branch of `search_recipes`
(lines 67-71) over an explicit collection:
`return {"results": db[:max_results]}`.  This branch is the listing
operation `list(limit)` of the specification. -/
def list_recipes_db (db : List Recipe) (max_results : Option Int) : SearchResult :=
  { results := pySliceTo db max_results }

/-- The listing operation on the module-level `RECIPES`. -/
def list_recipes (max_results : Option Int) : SearchResult :=
  list_recipes_db RECIPES max_results

/-- Body of `search_recipes` (lines 60-76) over an explicit collection.
`if not keyword` is true when `keyword` is `None` or the empty string;
otherwise the collection is filtered by `labelMatch` and sliced:
`list(filter(...))[:max_results]`. -/
def search_recipes_db (db : List Recipe) (keyword : Option String)
    (max_results : Option Int) : SearchResult :=
  match keyword with
  | none => { results := pySliceTo db max_results }
  | some kw =>
    if kw = "" then { results := pySliceTo db max_results }
    else { results := pySliceTo (db.filter (labelMatch kw)) max_results }

/-- The `search_recipes` endpoint (lines 59-76): the body above applied
to the module-level `RECIPES`; `max_results` defaults to `some 10` at
the HTTP boundary. -/
def search_recipes (keyword : Option String) (max_results : Option Int) : SearchResult :=
  search_recipes_db RECIPES keyword max_results

/-- State-passing form of `root`: the handler body performs no
assignment to the module-level collection, so the state component is
returned unchanged. -/
def rootS (db : List Recipe) : RootResult × List Recipe :=
  (root, db)

/-- State-passing form of `fetch_recipe`: the list comprehension reads
the collection and builds a new list; nothing in the body mutates the
collection, so the state component is returned unchanged. -/
def fetch_recipeS (db : List Recipe) (recipe_id : String) :
    Option Recipe × List Recipe :=
  (fetch_recipe_db db recipe_id, db)

/-- State-passing form of `search_recipes`: `filter` and slicing build
new lists; nothing in the body mutates the collection, so the state
component is returned unchanged. -/
def search_recipesS (db : List Recipe) (keyword : Option String)
    (max_results : Option Int) : SearchResult × List Recipe :=
  (search_recipes_db db keyword max_results, db)

/-- Correctness of `headMatch`: it is true exactly when the second list
extends the first. -/
theorem headMatch_iff (as bs : List Char) :
    headMatch as bs = true ↔ ∃ t, bs = as ++ t := by
  induction as generalizing bs with
  | nil => simp [headMatch]
  | cons a as ih =>
    cases bs with
    | nil => simp [headMatch]
    | cons b bs =>
      simp only [headMatch, Bool.and_eq_true, beq_iff_eq, ih]
      constructor
      · rintro ⟨hab, t, ht⟩
        exact ⟨t, by rw [hab, ht]; rfl⟩
      · rintro ⟨t, ht⟩
        injection ht with h1 h2
        exact ⟨h1.symm, t, h2⟩

/-- Correctness of `containsSub`: it is true exactly when `n` is a
contiguous segment of `l`. -/
theorem containsSub_iff (n l : List Char) :
    containsSub n l = true ↔ ∃ s t, l = s ++ n ++ t := by
  induction l with
  | nil =>
    rw [containsSub, headMatch_iff]
    constructor
    · rintro ⟨t, ht⟩
      exact ⟨[], t, ht⟩
    · rintro ⟨s, t, hst⟩
      have h2 : (s ++ n) ++ t = [] := hst.symm
      rw [List.append_eq_nil] at h2
      obtain ⟨h3, ht⟩ := h2
      rw [List.append_eq_nil] at h3
      exact ⟨[], by simp [h3.2]⟩
  | cons h t ih =>
    rw [containsSub, Bool.or_eq_true, headMatch_iff, ih]
    constructor
    · rintro (⟨u, hu⟩ | ⟨s, u, hsu⟩)
      · exact ⟨[], u, hu⟩
      · exact ⟨h :: s, u, by simp [hsu]⟩
    · rintro ⟨s, u, hsu⟩
      cases s with
      | nil => exact Or.inl ⟨u, by simpa using hsu⟩
      | cons c s =>
        injection hsu with h1 h2
        exact Or.inr ⟨s, u, h2⟩

/-- C1: for every identifier, `fetch_recipe` returns a record exactly
when that record is in `RECIPES` and its `id` field equals (under the
Python comparison the code performs) the supplied identifier, and it
returns the no-match signal `none` exactly when no record's `id` equals
the identifier. -/
theorem fetch_recipe_found_iff_match (recipe_id : String) :
    (∀ r ∈ RECIPES, pyEqIntStr r.id recipe_id = true →
      fetch_recipe recipe_id = some r) ∧
    (∀ r : Recipe, fetch_recipe recipe_id = some r →
      r ∈ RECIPES ∧ pyEqIntStr r.id recipe_id = true) ∧
    (fetch_recipe recipe_id = none ↔
      ∀ r ∈ RECIPES, pyEqIntStr r.id recipe_id = false) := by
  have hf : fetch_recipe recipe_id = none := rfl
  refine ⟨?_, ?_, ?_⟩
  · intro r _ habs
    simp [pyEqIntStr] at habs
  · intro r hr
    rw [hf] at hr
    exact absurd hr (by simp)
  · rw [hf]
    simp [pyEqIntStr]

/-- C2: for every string identifier, the `int == str` comparison inside
`fetch_recipe` never holds, so the lookup returns `none` on every
input. -/
theorem fetch_recipe_always_none (recipe_id : String) :
    fetch_recipe recipe_id = none := rfl

/-- C3: evaluation of the seeded examples.  The two searches behave as
the specification's example says; but the lookup of id 2 (the string
path parameter taken by the endpoint) returns the no-result outcome,
not the Chicken Paprikash record, and the lookup of id 99 returns the
no-result outcome. -/
theorem seeded_examples_evaluated :
    (search_recipes (some "chicken") (some 10)).results =
      [chickenVesuvio, chickenPaprikash] ∧
    (search_recipes (some "chicken") (some 1)).results = [chickenVesuvio] ∧
    fetch_recipe "2" = none ∧
    fetch_recipe "99" = none :=
  ⟨by decide, by decide, rfl, rfl⟩

/-- C4: for every non-empty keyword and every limit `k ≥ 0`, each record
returned by `search_recipes` satisfies the match predicate — its lowered
label contains the lowered keyword as a contiguous substring — the
results are a sublist of `RECIPES` (collection order), at most `k`
records are returned, and an empty match set gives the empty list. -/
theorem search_recipes_sound (kw : String) (k : Int)
    (hkw : kw ≠ "") (hk : 0 ≤ k) :
    (∀ r ∈ (search_recipes (some kw) (some k)).results,
      labelMatch kw r = true ∧ ∃ s t, pyLower r.label = s ++ pyLower kw ++ t) ∧
    List.Sublist (search_recipes (some kw) (some k)).results RECIPES ∧
    (search_recipes (some kw) (some k)).results.length ≤ k.toNat ∧
    ((∀ r ∈ RECIPES, labelMatch kw r = false) →
      (search_recipes (some kw) (some k)).results = []) := by
  have hres : (search_recipes (some kw) (some k)).results =
      (RECIPES.filter (labelMatch kw)).take k.toNat := by
    simp [search_recipes, search_recipes_db, pySliceTo, if_neg hkw, if_pos hk]
  refine ⟨?_, ?_, ?_, ?_⟩
  · intro r hr
    rw [hres] at hr
    have hr2 : r ∈ RECIPES.filter (labelMatch kw) := List.take_subset _ _ hr
    have hm := (List.mem_filter.mp hr2).2
    exact ⟨hm, (containsSub_iff _ _).mp hm⟩
  · rw [hres]
    exact (List.take_sublist _ _).trans (List.filter_sublist _)
  · rw [hres, List.length_take]
    exact min_le_left _ _
  · intro hall
    rw [hres]
    have hnil : RECIPES.filter (labelMatch kw) = [] := by
      rw [List.filter_eq_nil_iff]
      intro a ha
      simp [hall a ha]
    rw [hnil, List.take_nil]

/-- Witness for C4 at keyword "chicken" and limit 2. -/
theorem search_recipes_sound_witness :
    ("chicken" ≠ "" ∧ (0 : Int) ≤ 2) ∧
    ((∀ r ∈ (search_recipes (some "chicken") (some 2)).results,
      labelMatch "chicken" r = true ∧
        ∃ s t, pyLower r.label = s ++ pyLower "chicken" ++ t) ∧
    List.Sublist (search_recipes (some "chicken") (some 2)).results RECIPES ∧
    (search_recipes (some "chicken") (some 2)).results.length ≤ (2 : Int).toNat ∧
    ((∀ r ∈ RECIPES, labelMatch "chicken" r = false) →
      (search_recipes (some "chicken") (some 2)).results = [])) :=
  ⟨⟨by decide, by decide⟩, search_recipes_sound "chicken" 2 (by decide) (by decide)⟩

/-- C5: for every limit `k ≥ 0`, the listing branch returns the first
`k` recipes in collection order, hence exactly `min(k, |collection|)`
records, and the whole collection when `k` exceeds the collection
size. -/
theorem list_recipes_min_take (k : Int) (hk : 0 ≤ k) :
    (list_recipes (some k)).results = RECIPES.take k.toNat ∧
    (list_recipes (some k)).results.length = min k.toNat RECIPES.length ∧
    ((RECIPES.length : Int) < k → (list_recipes (some k)).results = RECIPES) := by
  have hres : (list_recipes (some k)).results = RECIPES.take k.toNat := by
    simp [list_recipes, list_recipes_db, pySliceTo, if_pos hk]
  refine ⟨hres, ?_, ?_⟩
  · rw [hres, List.length_take]
  · intro hgt
    rw [hres]
    exact List.take_of_length_le (by omega)

/-- Witness for C5 at limit 5, which exceeds the collection size 3. -/
theorem list_recipes_min_take_witness :
    (0 : Int) ≤ 5 ∧
    ((list_recipes (some 5)).results = RECIPES.take (5 : Int).toNat ∧
    (list_recipes (some 5)).results.length = min (5 : Int).toNat RECIPES.length ∧
    ((RECIPES.length : Int) < 5 → (list_recipes (some 5)).results = RECIPES)) :=
  ⟨by decide, list_recipes_min_take 5 (by decide)⟩

/-- C6: for every limit, searching with an absent keyword or with the
empty-string keyword returns exactly the listing result. -/
theorem search_no_keyword_is_list (k : Option Int) :
    search_recipes none k = list_recipes k ∧
    search_recipes (some "") k = list_recipes k :=
  ⟨rfl, rfl⟩

/-- C7 counterexample: at limit -1 the operations return data rather
than any failure: the keyword-absent branch returns the first two
seeded records and the "chicken" search returns the first match. -/
theorem negative_limit_returns_data :
    (search_recipes none (some (-1))).results =
      [chickenVesuvio, chickenPaprikash] ∧
    (search_recipes (some "chicken") (some (-1))).results = [chickenVesuvio] :=
  ⟨by decide, by decide⟩

/-- C7 amended: for every negative limit `n`, the operations do not
reject the input; Python slice semantics apply, so the first
`length + n` elements (clamped at zero) of the listed or filtered
collection are returned as ordinary data. -/
theorem negative_limit_slice_semantics (n : Int) (hn : n < 0) :
    (list_recipes (some n)).results =
      RECIPES.take ((RECIPES.length : Int) + n).toNat ∧
    (search_recipes none (some n)).results =
      RECIPES.take ((RECIPES.length : Int) + n).toNat ∧
    (∀ kw : String, kw ≠ "" →
      (search_recipes (some kw) (some n)).results =
        (RECIPES.filter (labelMatch kw)).take
          (((RECIPES.filter (labelMatch kw)).length : Int) + n).toNat) := by
  have hneg : ¬ (0 ≤ n) := not_le.mpr hn
  refine ⟨?_, ?_, ?_⟩
  · simp [list_recipes, list_recipes_db, pySliceTo, if_neg hneg]
  · simp [search_recipes, search_recipes_db, pySliceTo, if_neg hneg]
  · intro kw hkw
    simp [search_recipes, search_recipes_db, pySliceTo, if_neg hkw, if_neg hneg]

/-- Witness for the amended C7 at limit -1. -/
theorem negative_limit_slice_semantics_witness :
    (-1 : Int) < 0 ∧
    ((list_recipes (some (-1))).results =
      RECIPES.take ((RECIPES.length : Int) + (-1)).toNat ∧
    (search_recipes none (some (-1))).results =
      RECIPES.take ((RECIPES.length : Int) + (-1)).toNat ∧
    (∀ kw : String, kw ≠ "" →
      (search_recipes (some kw) (some (-1))).results =
        (RECIPES.filter (labelMatch kw)).take
          (((RECIPES.filter (labelMatch kw)).length : Int) + (-1)).toNat)) :=
  ⟨by decide, negative_limit_slice_semantics (-1) (by decide)⟩

/-- C8: no handler mutates the collection — in state-passing form each
returns the collection it was given — and repeating a call with the
same arguments on the resulting state returns the same result. -/
theorem handlers_no_mutation (db : List Recipe) (recipe_id : String)
    (kw : Option String) (mr : Option Int) :
    (rootS db).2 = db ∧
    (fetch_recipeS db recipe_id).2 = db ∧
    (search_recipesS db kw mr).2 = db ∧
    (rootS (rootS db).2).1 = (rootS db).1 ∧
    (fetch_recipeS (fetch_recipeS db recipe_id).2 recipe_id).1 =
      (fetch_recipeS db recipe_id).1 ∧
    (search_recipesS (search_recipesS db kw mr).2 kw mr).1 =
      (search_recipesS db kw mr).1 :=
  ⟨rfl, rfl, rfl, rfl, rfl, rfl⟩

/-- C9: the seeded collection has pairwise distinct ids, and every
handler preserves the uniqueness invariant since each leaves the
collection unchanged. -/
theorem id_uniqueness_preserved (db : List Recipe) (recipe_id : String)
    (kw : Option String) (mr : Option Int)
    (h : (db.map Recipe.id).Nodup) :
    (RECIPES.map Recipe.id).Nodup ∧
    ((rootS db).2.map Recipe.id).Nodup ∧
    ((fetch_recipeS db recipe_id).2.map Recipe.id).Nodup ∧
    ((search_recipesS db kw mr).2.map Recipe.id).Nodup :=
  ⟨by decide, h, h, h⟩

/-- Witness for C9 on the seeded collection. -/
theorem id_uniqueness_preserved_witness :
    (RECIPES.map Recipe.id).Nodup ∧
    ((rootS RECIPES).2.map Recipe.id).Nodup ∧
    ((fetch_recipeS RECIPES "1").2.map Recipe.id).Nodup ∧
    ((search_recipesS RECIPES none (some 10)).2.map Recipe.id).Nodup :=
  id_uniqueness_preserved RECIPES "1" none (some 10) (by decide)

/-- C10: with `max_results` explicitly `None`, the cap disappears: the
keyword-absent branch returns the whole collection and the keyword
branch returns every matching record. -/
theorem none_limit_removes_cap (kw : String) (hkw : kw ≠ "") :
    (search_recipes none none).results = RECIPES ∧
    (search_recipes (some kw) none).results = RECIPES.filter (labelMatch kw) := by
  refine ⟨rfl, ?_⟩
  simp [search_recipes, search_recipes_db, pySliceTo, if_neg hkw]

/-- Witness for C10 at keyword "chicken". -/
theorem none_limit_removes_cap_witness :
    ("chicken" ≠ "") ∧
    ((search_recipes none none).results = RECIPES ∧
    (search_recipes (some "chicken") none).results =
      RECIPES.filter (labelMatch "chicken")) :=
  ⟨by decide, none_limit_removes_cap "chicken" (by decide)⟩
